import Mathlib

/-!
Verification of the face-tracking robot controller (`ObjectDetection.py`).

The development shallowly embeds the control core of the program:
the per-frame command policy (`calculate_movement_command`), the command
dispatcher (`send_to_arduino`), the shutdown path (`cleanup`), and the
rate-limited dispatch step of the driver loop (`run`).

Modelling conventions:
* Bounding-box coordinates, sizes and areas are OpenCV integer pixel
  values, always non-negative; they are embedded as `Nat`. The Python
  floor division on non-negative integers coincides with `Nat` division,
  and `int(sum/len)` for the magnitudes occurring here (sums of at most
  five values below 2^21) is an exact float computation truncating a
  non-negative quotient, hence also `Nat` division.
* The horizontal offset from frame center can be negative; it is an `Int`.
* The serial link and the console are modelled as an explicit effect list;
  a possible serial-write exception is an explicit `Bool` parameter
  (`true` = the write call succeeds).
* The `deque(maxlen=5)` history is a list with most-recent element last
  and left-eviction past capacity.
-/

/-- A detected face bounding box `(x, y, w, h)` as returned by
`detect_face` (line 123): OpenCV pixel coordinates, all non-negative. -/
structure FaceRect where
  x : Nat
  y : Nat
  w : Nat
  h : Nat
deriving Repr, DecidableEq

/-- One smoothing-history entry `(face_center_x, face_center_y, face_area)`
as appended on line 143. -/
abbrev Sample := Nat × Nat × Nat

/-- The mutable state of a `FaceTrackingRobot` instance that the embedded
control core reads or writes (set up in `__init__`, lines 28-88). -/
structure RobotState where
  /-- `self.simulation_mode` (line 29): true when no real serial link. -/
  simulation_mode : Bool
  /-- whether `self.arduino` holds a live serial object (line 28). -/
  arduino : Bool
  /-- `self.movement_enabled` (line 86). -/
  movement_enabled : Bool
  /-- `self.no_face_counter` (line 77). -/
  no_face_counter : Nat
  /-- `self.face_positions`, a `deque(maxlen=5)` (line 83). -/
  face_positions : List Sample
  /-- `self.last_command` (line 87), `None` initially. -/
  last_command : Option String
  /-- `self.command_count` (line 88). -/
  command_count : Nat
  /-- `self.dead_zone` (line 72), 80 at startup. -/
  dead_zone : Nat
  /-- `self.min_face_size` (line 73), 15000 at startup. -/
  min_face_size : Nat
  /-- `self.max_face_size` (line 74), 60000 at startup. -/
  max_face_size : Nat
  /-- `self.frame_width` (line 66), 640 at startup. -/
  frame_width : Nat
  /-- `self.frame_height` (line 67), 480 at startup. -/
  frame_height : Nat
deriving Repr, DecidableEq

/-- `self.center_x = self.frame_width // 2` (line 68). -/
def RobotState.center_x (s : RobotState) : Nat :=
  s.frame_width / 2

/-- The state right after `__init__` for a given link configuration
(lines 66-88): thresholds 80/15000/60000, empty history, counters zero. -/
def initState (sim ard : Bool) : RobotState :=
  { simulation_mode := sim
    arduino := ard
    movement_enabled := true
    no_face_counter := 0
    face_positions := []
    last_command := none
    command_count := 0
    dead_zone := 80
    min_face_size := 15000
    max_face_size := 60000
    frame_width := 640
    frame_height := 480 }

/-- Appending to a `deque` with `maxlen = cap`: the new element goes to the
back and the oldest elements are evicted from the front past capacity. -/
def dequeAppend (cap : Nat) (buf : List Sample) (x : Sample) : List Sample :=
  let buf2 := buf ++ [x]
  if cap < buf2.length then buf2.drop (buf2.length - cap) else buf2

/-- `face_center_x = x + w // 2` (line 138). -/
def faceCenterX (r : FaceRect) : Nat := r.x + r.w / 2

/-- `face_center_y = y + h // 2` (line 139). -/
def faceCenterY (r : FaceRect) : Nat := r.y + r.h / 2

/-- `face_area = w * h` (line 140). -/
def faceArea (r : FaceRect) : Nat := r.w * r.h

/-- The smoothing history after the current detection is appended
(line 143, `self.face_positions.append(...)` with `maxlen=5`). -/
def updatedPositions (s : RobotState) (r : FaceRect) : List Sample :=
  dequeAppend 5 s.face_positions (faceCenterX r, faceCenterY r, faceArea r)

/-- `int(sum(f(pos) for pos in ps) / len(ps))` for non-negative entries. -/
def avgOf (f : Sample → Nat) (ps : List Sample) : Nat :=
  (ps.map f).sum / ps.length

/-- `avg_x` of lines 146-151: mean of history x-centers after the append,
with the (dead) defensive fallback to the raw center. -/
def smoothedX (s : RobotState) (r : FaceRect) : Nat :=
  let ps := updatedPositions s r
  if 0 < ps.length then avgOf (fun p => p.1) ps else faceCenterX r

/-- `avg_area` of lines 146-151: mean of history areas after the append,
with the (dead) defensive fallback to the raw area. -/
def smoothedArea (s : RobotState) (r : FaceRect) : Nat :=
  let ps := updatedPositions s r
  if 0 < ps.length then avgOf (fun p => p.2.2) ps else faceArea r

/-- `offset_x = avg_x - self.center_x` (line 154); may be negative. -/
def offsetX (s : RobotState) (r : FaceRect) : Int :=
  (smoothedX s r : Int) - (s.center_x : Int)

/-- `calculate_movement_command` (lines 125-164): from the current state and
the detector result, the command character and the updated state.
On `None` the history is untouched, the miss counter bumps and the result
is the rotate-right search command; on a detection the sample is appended,
then too-close beats steering beats forward. -/
def calculate_movement_command (s : RobotState) (face_rect : Option FaceRect) :
    String × RobotState :=
  match face_rect with
  | none =>
      ("R", { s with no_face_counter := s.no_face_counter + 1 })
  | some r =>
      let s1 := { s with no_face_counter := 0,
                         face_positions := updatedPositions s r }
      if s.max_face_size < smoothedArea s r then
        ("S", s1)
      else if s.dead_zone ≤ (offsetX s r).natAbs then
        (if offsetX s r < 0 then "L" else "R", s1)
      else
        ("F", s1)

/-- The distance-band label drawn by `draw_interface` (lines 204-212); the
only place `min_face_size` is read. -/
def distance_status (s : RobotState) (face_area : Nat) : String :=
  if face_area < s.min_face_size then "TOO FAR"
  else if s.max_face_size < face_area then "TOO CLOSE"
  else "GOOD"

/-- `allowed = {F, L, R, S}` (line 168): the allow-list of the dispatcher. -/
def allowed_commands : List String := ["F", "L", "R", "S"]

/-- The `cmd_names` lookup of line 179 with its `.get(command, command)`
fallback (line 180). -/
def cmd_names (c : String) : String :=
  if c = "F" then "FORWARD"
  else if c = "L" then "LEFT"
  else if c = "R" then "RIGHT"
  else if c = "S" then "STOP"
  else c

/-- An observable side effect of a dispatch: a byte written to the serial
link, or a console line from the simulation sink. -/
inductive SendEffect where
  | linkWrite (payload : String)
  | simPrint (msg : String)
deriving Repr, DecidableEq

/-- `send_to_arduino` (lines 166-182): result flag and the effects on the
link/console. `writeOk` tells whether `self.arduino.write` succeeds; when it
raises, the exception is caught, no byte reaches the link and the call
returns `False` (lines 175-177). The simulation branch (lines 178-181) does
not consult `movement_enabled`. -/
def send_to_arduino (s : RobotState) (command : String) (writeOk : Bool) :
    Bool × List SendEffect :=
  if command ∈ allowed_commands then
    if !s.simulation_mode && s.arduino && s.movement_enabled then
      if writeOk then (true, [SendEffect.linkWrite command])
      else (false, [])
    else if s.simulation_mode then
      (true, [SendEffect.simPrint ("[SIM] Command: " ++ cmd_names command)])
    else
      (false, [])
  else
    (false, [])

/-- An observable step of the shutdown path `cleanup` (lines 276-286). -/
inductive CleanupEffect where
  | linkWrite (payload : String)
  | linkClose
  | camRelease
  | destroyWindows
deriving Repr, DecidableEq

/-- Outcome of `cleanup`: the effects that happened, and whether the method
ran to completion (`completed = false` means an uncaught exception escaped
before the remaining statements could run). -/
structure CleanupResult where
  effects : List CleanupEffect
  completed : Bool
deriving Repr, DecidableEq

/-- `cleanup` (lines 276-286): with a real link it writes the raw byte `S`
(line 281, not routed through `send_to_arduino` and not inside a
`try`), closes the link, then releases the camera and destroys the windows.
`stopWriteOk` tells whether that unprotected raw write of the S byte
succeeds; if it raises, the exception propagates out of `cleanup` and none
of the later statements run. -/
def cleanup (s : RobotState) (stopWriteOk : Bool) : CleanupResult :=
  if !s.simulation_mode && s.arduino then
    if stopWriteOk then
      { effects := [CleanupEffect.linkWrite "S", CleanupEffect.linkClose,
                    CleanupEffect.camRelease, CleanupEffect.destroyWindows]
        completed := true }
    else
      { effects := [], completed := false }
  else
    { effects := [CleanupEffect.camRelease, CleanupEffect.destroyWindows]
      completed := true }

/-- The dispatch portion of one `run` loop iteration (lines 257-261): call
`send_to_arduino` when the command differs from `last_command` or the frame
counter is a multiple of 5, update `last_command` only in that case, and
always increment `command_count`. -/
def driver_step (s : RobotState) (command : String) (writeOk : Bool) :
    RobotState × List SendEffect :=
  if some command ≠ s.last_command ∨ s.command_count % 5 = 0 then
    let r := send_to_arduino s command writeOk
    ({ s with last_command := some command,
              command_count := s.command_count + 1 }, r.2)
  else
    ({ s with command_count := s.command_count + 1 }, [])

/-- Iterated `driver_step` with successful writes over a list of per-frame
commands; collects every dispatch effect in frame order. -/
def driver_run (s : RobotState) : List String → RobotState × List SendEffect
  | [] => (s, [])
  | c :: cs =>
      let p := driver_step s c true
      let q := driver_run p.1 cs
      (q.1, p.2 ++ q.2)

/-! ### Helper lemmas -/

/-- The smoothing buffer update never reads `min_face_size`. -/
theorem updatedPositions_min_irrel (s : RobotState) (m : Nat) (r : FaceRect) :
    updatedPositions { s with min_face_size := m } r = updatedPositions s r := rfl

/-- The smoothed area never reads `min_face_size`. -/
theorem smoothedArea_min_irrel (s : RobotState) (m : Nat) (r : FaceRect) :
    smoothedArea { s with min_face_size := m } r = smoothedArea s r := rfl

/-- The smoothed offset never reads `min_face_size`. -/
theorem offsetX_min_irrel (s : RobotState) (m : Nat) (r : FaceRect) :
    offsetX { s with min_face_size := m } r = offsetX s r := rfl

/-! ### Claim theorems: the command policy -/

/-- C1, counterexample: the claim says a frame with no detected face yields
STOP; on the initial state the code yields the rotate-right search command
instead, so the command is not S. -/
theorem no_face_command_not_stop :
    (calculate_movement_command (initState true false) none).1 ≠ "S" := by
  decide

/-- C1 (amended): whenever the detector reports no face on a frame, the
command the policy produces for that frame is R — the controller searches
by rotating right on loss of face, it does not halt. -/
theorem no_face_command_is_right (s : RobotState) :
    (calculate_movement_command s none).1 = "R" := rfl

/-- C2: for every detected face whose smoothed area exceeds
`max_face_size`, the policy commands S, whatever the horizontal offset of
the smoothed center is — the too-close rule has precedence over steering. -/
theorem too_close_stops (s : RobotState) (r : FaceRect)
    (h : s.max_face_size < smoothedArea s r) :
    (calculate_movement_command s (some r)).1 = "S" := by
  simp [calculate_movement_command, h]

/-- C2, witness: a 300 by 300 box has smoothed area 90000 above the startup
threshold 60000, and indeed the command is S. -/
theorem too_close_stops_witness :
    (calculate_movement_command (initState true false)
      (some ⟨500, 200, 300, 300⟩)).1 = "S" :=
  too_close_stops (initState true false) ⟨500, 200, 300, 300⟩ (by decide)

/-- C3: for every detected face with smoothed area at most `max_face_size`
and smoothed horizontal offset of magnitude at least `dead_zone`, the
command is L when the offset is negative (face left of center) and R when
it is non-negative. -/
theorem steering_matches_offset_sign (s : RobotState) (r : FaceRect)
    (h1 : smoothedArea s r ≤ s.max_face_size)
    (h2 : s.dead_zone ≤ (offsetX s r).natAbs) :
    (offsetX s r < 0 → (calculate_movement_command s (some r)).1 = "L") ∧
    (0 ≤ offsetX s r → (calculate_movement_command s (some r)).1 = "R") := by
  have hn : ¬ s.max_face_size < smoothedArea s r := not_lt.mpr h1
  constructor
  · intro hneg
    simp [calculate_movement_command, hn, h2, hneg]
  · intro hpos
    simp [calculate_movement_command, hn, h2, not_lt.mpr hpos]

/-- C3, witness: a 100 by 100 box at the far left (smoothed center 50,
offset -270, area 10000) steers L. -/
theorem steering_matches_offset_sign_witness :
    (calculate_movement_command (initState true false)
      (some ⟨0, 100, 100, 100⟩)).1 = "L" :=
  (steering_matches_offset_sign (initState true false) ⟨0, 100, 100, 100⟩
    (by decide) (by decide)).1 (by decide)

/-- C4: for every detected face with smoothed area at most `max_face_size`
and offset magnitude below `dead_zone` the command is F; moreover
`min_face_size` affects no branch of the policy: two states differing only
in that constant produce identical commands on every detector input. -/
theorem centered_forward_min_area_unused (s : RobotState) (r : FaceRect)
    (m : Nat) (input : Option FaceRect) :
    (smoothedArea s r ≤ s.max_face_size → (offsetX s r).natAbs < s.dead_zone →
      (calculate_movement_command s (some r)).1 = "F") ∧
    (calculate_movement_command { s with min_face_size := m } input).1 =
      (calculate_movement_command s input).1 := by
  constructor
  · intro h1 h2
    simp [calculate_movement_command, not_lt.mpr h1, not_le.mpr h2]
  · cases input with
    | none => rfl
    | some r2 =>
      simp only [calculate_movement_command, smoothedArea_min_irrel,
        offsetX_min_irrel, updatedPositions_min_irrel]
      split_ifs <;> rfl

/-- C4, witness: a centered 100 by 100 box (smoothed area 10000, offset 0)
commands F, and zeroing `min_face_size` changes no command. -/
theorem centered_forward_min_area_unused_witness :
    (calculate_movement_command (initState true false)
      (some ⟨270, 100, 100, 100⟩)).1 = "F" ∧
    (calculate_movement_command
        { initState true false with min_face_size := 0 } none).1 =
      (calculate_movement_command (initState true false) none).1 :=
  ⟨(centered_forward_min_area_unused (initState true false) ⟨270, 100, 100, 100⟩
      0 none).1 (by decide) (by decide),
   (centered_forward_min_area_unused (initState true false) ⟨270, 100, 100, 100⟩
      0 none).2⟩

/-- C5: on a frame where the detector reports no face, the per-frame
command computation leaves the smoothing history exactly as it was: no
sample appended, none removed, same order. -/
theorem missed_frame_keeps_history (s : RobotState) :
    ((calculate_movement_command s none).2).face_positions =
      s.face_positions := rfl

/-- C10: for every state and every detector result, the command produced by
`calculate_movement_command` is one of the four allow-listed symbols F, L,
R, S, so the allow-list rejection branch of the dispatcher can never fire
on a command coming from the automatic tracking loop. -/
theorem policy_commands_allowlisted (s : RobotState) (input : Option FaceRect) :
    (calculate_movement_command s input).1 ∈ allowed_commands := by
  cases input with
  | none => simp [calculate_movement_command, allowed_commands]
  | some r =>
    simp only [calculate_movement_command]
    split_ifs <;> simp [allowed_commands]

/-! ### Claim theorems: the dispatcher and the shutdown path -/

/-- C6: a byte is written to the actuator link only for one of the four
allow-listed symbols; any other input produces no effect at all and reports
false. The allow-list also bounds every link write of the shutdown path. -/
theorem link_writes_allowlisted (s : RobotState) (command : String) (wk : Bool) :
    (command ∉ allowed_commands → send_to_arduino s command wk = (false, [])) ∧
    (∀ p, SendEffect.linkWrite p ∈ (send_to_arduino s command wk).2 →
      p ∈ allowed_commands) ∧
    (∀ p sk, CleanupEffect.linkWrite p ∈ (cleanup s sk).effects →
      p ∈ allowed_commands) := by
  refine ⟨fun h => by simp [send_to_arduino, h], fun p hp => ?_, fun p sk hp => ?_⟩
  · by_cases hcmd : command ∈ allowed_commands
    · unfold send_to_arduino at hp
      rw [if_pos hcmd] at hp
      split_ifs at hp <;> simp_all
    · unfold send_to_arduino at hp
      rw [if_neg hcmd] at hp
      simp at hp
  · unfold cleanup at hp
    split_ifs at hp <;> simp_all [allowed_commands]

/-- C6, witness: the legacy symbol BACKWARD is dropped with no effect. -/
theorem link_writes_allowlisted_witness :
    send_to_arduino (initState false true) "BACKWARD" true = (false, []) :=
  (link_writes_allowlisted (initState false true) "BACKWARD" true).1 (by decide)

/-- C7, counterexample: with movement administratively disabled but
simulation mode on, the dispatcher does not ignore an allowed command — it
still emits the simulated-send report and returns true, against the claim
that it returns false with no report. -/
theorem sim_disabled_still_sends :
    send_to_arduino { initState true false with movement_enabled := false }
      "F" true = (true, [SendEffect.simPrint "[SIM] Command: FORWARD"]) := by
  decide

/-- C7 (amended): with movement disabled, the dispatcher ignores an allowed
command only in real-link mode (no write, returns false); in simulation
mode the disabled flag is not consulted and the simulated send still
happens and reports true. -/
theorem disabled_ignored_only_on_real_link (s : RobotState) (command : String)
    (wk : Bool) (hcmd : command ∈ allowed_commands)
    (hdis : s.movement_enabled = false) :
    (s.simulation_mode = false → send_to_arduino s command wk = (false, [])) ∧
    (s.simulation_mode = true → send_to_arduino s command wk =
      (true, [SendEffect.simPrint ("[SIM] Command: " ++ cmd_names command)])) := by
  constructor <;> intro hsim <;> simp [send_to_arduino, hcmd, hdis, hsim]

/-- C7, witness: on a real link with movement disabled, F is ignored. -/
theorem disabled_ignored_witness :
    send_to_arduino { initState false true with movement_enabled := false }
      "F" true = (false, []) :=
  (disabled_ignored_only_on_real_link
    { initState false true with movement_enabled := false } "F" true
    (by decide) (by decide)).1 (by decide)

/-- C9, counterexample: when the shutdown STOP write fails on a real link,
`cleanup` does not absorb the failure — the exception escapes and the
camera release never runs, against the claim that cleanup still releases
the camera and closes the link on a failed STOP write. -/
theorem failed_stop_write_skips_release :
    CleanupEffect.camRelease ∉ (cleanup (initState false true) false).effects ∧
    (cleanup (initState false true) false).completed = false := by
  decide

/-- C9 (amended): on exit in real-link mode, the shutdown path writes the
byte S to the link exactly once; when that write succeeds it then closes
the link, releases the camera and destroys the windows, but the write is
not exception-protected, so when it fails the exception escapes `cleanup`
and no later step runs. In simulation mode no STOP is dispatched and the
camera is still released. -/
theorem cleanup_release_only_after_stop (s : RobotState) :
    (s.simulation_mode = false → s.arduino = true →
      cleanup s true =
        { effects := [CleanupEffect.linkWrite "S", CleanupEffect.linkClose,
                      CleanupEffect.camRelease, CleanupEffect.destroyWindows],
          completed := true } ∧
      cleanup s false = { effects := [], completed := false }) ∧
    (s.simulation_mode = true →
      cleanup s true =
        { effects := [CleanupEffect.camRelease, CleanupEffect.destroyWindows],
          completed := true }) := by
  constructor
  · intro hs ha
    constructor <;> simp [cleanup, hs, ha]
  · intro hs
    simp [cleanup, hs]

/-- C9, witness: real-link cleanup with a succeeding and with a failing
STOP write, evaluated on the startup state. -/
theorem cleanup_release_witness :
    cleanup (initState false true) true =
      { effects := [CleanupEffect.linkWrite "S", CleanupEffect.linkClose,
                    CleanupEffect.camRelease, CleanupEffect.destroyWindows],
        completed := true } ∧
    cleanup (initState false true) false = { effects := [], completed := false } :=
  (cleanup_release_only_after_stop (initState false true)).1 (by decide) (by decide)

/-! ### Claim theorems: the driver heartbeat -/

/-- Under a live, enabled link a successful dispatch of an allowed command
writes exactly that byte. -/
theorem send_live (s : RobotState) (c : String) (h1 : s.simulation_mode = false)
    (h2 : s.arduino = true) (h3 : s.movement_enabled = true)
    (hc : c ∈ allowed_commands) :
    send_to_arduino s c true = (true, [SendEffect.linkWrite c]) := by
  simp [send_to_arduino, h1, h2, h3, hc]

/-- One driver iteration keeps the link flags and bumps the frame counter. -/
theorem driver_step_flags (s : RobotState) (c : String) (wk : Bool) :
    ((driver_step s c wk).1).simulation_mode = s.simulation_mode ∧
    ((driver_step s c wk).1).arduino = s.arduino ∧
    ((driver_step s c wk).1).movement_enabled = s.movement_enabled ∧
    ((driver_step s c wk).1).command_count = s.command_count + 1 := by
  unfold driver_step
  split <;> exact ⟨rfl, rfl, rfl, rfl⟩

/-- A driver run keeps the link flags. -/
theorem driver_run_flags (s : RobotState) (l : List String) :
    ((driver_run s l).1).simulation_mode = s.simulation_mode ∧
    ((driver_run s l).1).arduino = s.arduino ∧
    ((driver_run s l).1).movement_enabled = s.movement_enabled := by
  induction l generalizing s with
  | nil => exact ⟨rfl, rfl, rfl⟩
  | cons c cs ih =>
    have h := driver_step_flags s c true
    have h2 := ih (driver_step s c true).1
    exact ⟨h2.1.trans h.1, h2.2.1.trans h.2.1, h2.2.2.trans h.2.2.1⟩

/-- A driver run splits over list concatenation. -/
theorem driver_run_append (s : RobotState) (l1 l2 : List String) :
    driver_run s (l1 ++ l2) =
      ((driver_run (driver_run s l1).1 l2).1,
       (driver_run s l1).2 ++ (driver_run (driver_run s l1).1 l2).2) := by
  induction l1 generalizing s with
  | nil => simp [driver_run]
  | cons c cs ih => simp [driver_run, ih, List.append_assoc]

/-- A frame whose counter is a multiple of 5 forces a dispatch whatever
`last_command` is, so a run of repeats covering such a frame writes the
command to a live enabled link at least once. -/
theorem heartbeat_frame_writes (c : String) (l : List String) :
    ∀ s : RobotState, s.simulation_mode = false → s.arduino = true →
      s.movement_enabled = true → c ∈ allowed_commands →
      (∀ x ∈ l, x = c) →
      (∃ i, i < l.length ∧ (s.command_count + i) % 5 = 0) →
      1 ≤ ((driver_run s l).2).count (SendEffect.linkWrite c) := by
  induction l with
  | nil =>
    rintro s _ _ _ _ _ ⟨i, hi, _⟩
    simp at hi
  | cons d cs ih =>
    rintro s h1 h2 h3 hc hall ⟨i, hi, hmod⟩
    obtain rfl : c = d := (hall d (by simp)).symm
    simp only [driver_run, List.count_append]
    cases i with
    | zero =>
      simp only [Nat.add_zero] at hmod
      have hstep : (driver_step s c true).2 = [SendEffect.linkWrite c] := by
        unfold driver_step
        rw [if_pos (Or.inr hmod), send_live s c h1 h2 h3 hc]
      rw [hstep]
      simp
    | succ j =>
      have hf := driver_step_flags s c true
      have hrest :
          1 ≤ ((driver_run (driver_step s c true).1 cs).2).count
                (SendEffect.linkWrite c) := by
        refine ih (driver_step s c true).1 (hf.1.trans h1) (hf.2.1.trans h2)
          (hf.2.2.1.trans h3) hc (fun x hx => hall x (by simp [hx])) ⟨j, ?_, ?_⟩
        · simpa using Nat.lt_of_succ_lt_succ hi
        · rw [hf.2.2.2]; omega
      omega

/-- C8: starting from any state with a live, enabled link whose writes
succeed, a run of 10 consecutive frames all commanding the same allowed
symbol dispatches it at least twice, so the link receives at least 2 writes
of that command despite the differs-from-last throttle. -/
theorem heartbeat_ten_frames (s : RobotState) (c : String)
    (h1 : s.simulation_mode = false) (h2 : s.arduino = true)
    (h3 : s.movement_enabled = true) (hc : c ∈ allowed_commands) :
    2 ≤ ((driver_run s (List.replicate 10 c)).2).count (SendEffect.linkWrite c) := by
  have hsplit : List.replicate 10 c = List.replicate 5 c ++ List.replicate 5 c := by
    rw [← List.replicate_add]
  rw [hsplit, driver_run_append]
  simp only [List.count_append]
  have hfl := driver_run_flags s (List.replicate 5 c)
  have hb1 : 1 ≤ ((driver_run s (List.replicate 5 c)).2).count
      (SendEffect.linkWrite c) := by
    refine heartbeat_frame_writes c (List.replicate 5 c) s h1 h2 h3 hc
      (fun x hx => List.eq_of_mem_replicate hx) ?_
    refine ⟨(5 - s.command_count % 5) % 5, by simp; omega, by omega⟩
  have hb2 : 1 ≤ ((driver_run (driver_run s (List.replicate 5 c)).1
      (List.replicate 5 c)).2).count (SendEffect.linkWrite c) := by
    refine heartbeat_frame_writes c (List.replicate 5 c)
      (driver_run s (List.replicate 5 c)).1
      (hfl.1.trans h1) (hfl.2.1.trans h2) (hfl.2.2.trans h3) hc
      (fun x hx => List.eq_of_mem_replicate hx) ?_
    refine ⟨(5 - ((driver_run s (List.replicate 5 c)).1).command_count % 5) % 5,
      by simp; omega, by omega⟩
  omega

/-- C8, witness: 10 frames of F from the startup state on a live link give
at least two F writes (in fact exactly the heartbeat pair). -/
theorem heartbeat_ten_frames_witness :
    2 ≤ ((driver_run (initState false true)
      (List.replicate 10 "F")).2).count (SendEffect.linkWrite "F") :=
  heartbeat_ten_frames (initState false true) "F" (by decide) (by decide)
    (by decide) (by decide)
